import Mathlib

/-!
Verification of the identity-resolution subsystem of
`rust-runtime/aws-smithy-runtime-api/src/client/identity.rs`.

The Rust code is shallowly embedded:
* `std::any::Any` type erasure is modelled by a closed universe `Ty` of
  payload types with decidable equality of type tags and a safe downcast;
* `Arc` handles are modelled by a value carrying a heap address
  (`addr`), so that "clone shares the same underlying instance" is the
  statement that the address is preserved;
* `tracing::warn!` side effects are modelled by an explicit list of
  diagnostic messages returned next to the constructed value;
* the asynchronous `Future<Identity>` is modelled by its eventual result
  `Except ResolutionError Identity`.
-/

/-- Timestamps (`std::time::SystemTime`), abstracted to a counter. -/
abbrev SystemTime := Nat

/-- Universe of payload types stored inside the type-erased
`Arc<dyn Any + Send + Sync>`. The `prod` constructor keeps the universe
infinite, reflecting the open-ended set of Rust types. -/
inductive Ty where
  | nat : Ty
  | str : Ty
  | bool : Ty
  | prod : Ty → Ty → Ty
deriving DecidableEq

/-- Interpretation of a payload type tag as a Lean type. -/
@[reducible]
def Ty.interp : Ty → Type
  | .nat => Nat
  | .str => String
  | .bool => Bool
  | .prod a b => a.interp × b.interp

/-- A type-erased value: a type tag together with a value of that type
(models `dyn Any + Send + Sync`). -/
def AnyVal := Σ t : Ty, t.interp

/-- Safe downcast (`Any::downcast_ref::<T>`): yields the stored value
when the requested tag matches the stored tag, `none` otherwise. -/
def AnyVal.downcast (v : AnyVal) (u : Ty) : Option u.interp :=
  if h : v.1 = u then some (h ▸ v.2) else none

/-- `Identity`: a type-erased shared payload plus an optional
expiration (`data: Arc<dyn Any + Send + Sync>, expiration: Option<SystemTime>`). -/
structure Identity where
  data : AnyVal
  expiration : Option SystemTime

/-- `Identity::new(data, expiration)`. -/
def Identity.new (t : Ty) (p : t.interp) (expiration : Option SystemTime) : Identity :=
  { data := ⟨t, p⟩, expiration := expiration }

/-- `Identity::data::<T>()` (the spec calls it `payload_as::<T>()`):
type-checked payload access via downcast. -/
def Identity.dataAs (i : Identity) (u : Ty) : Option u.interp :=
  i.data.downcast u

/-- `Identity::expiration()`: the stored optional timestamp
(`self.expiration.as_ref()`, modelled by value). -/
def Identity.getExpiration (i : Identity) : Option SystemTime :=
  i.expiration

/-- `#[derive(Clone)] struct Identity`: the `Arc` payload is shared
(same type-erased value) and the optional expiration is copied. -/
def Identity.clone (i : Identity) : Identity :=
  { data := i.data, expiration := i.expiration }

/-- Ambient layered configuration passed to resolvers
(`&ConfigBag`); its internals are irrelevant to the resolvers here. -/
structure ConfigBag where
  entries : List Nat

/-- Failure channel of the asynchronous result of resolution. -/
structure ResolutionError where
  msg : String

/-- Eventual result of `Future<Identity>`. -/
abbrev FutureIdentity := Except ResolutionError Identity

/-- The `IdentityResolver` capability: one operation
`resolve_identity(&self, config_bag) -> Future<Identity>`. -/
structure IdentityResolverImpl where
  resolve_identity : ConfigBag → FutureIdentity

/-- `SharedIdentityResolver(Arc<dyn IdentityResolver>)`: a reference-counted
handle. `addr` is the heap address of the `Arc` allocation; `resolve` is
the wrapped resolver's behavior reachable through the pointer. -/
structure SharedIdentityResolver where
  addr : Nat
  resolve : ConfigBag → FutureIdentity

/-- `SharedIdentityResolver::new(resolver)`: wraps the resolver behind a
freshly allocated `Arc`; `addr` stands for the fresh allocation. -/
def SharedIdentityResolver.new (r : IdentityResolverImpl) (addr : Nat) :
    SharedIdentityResolver :=
  { addr := addr, resolve := r.resolve_identity }

/-- `Clone for Arc`: copies the pointer; the underlying resolver
instance is shared, not duplicated. -/
def SharedIdentityResolver.clone (h : SharedIdentityResolver) : SharedIdentityResolver :=
  { addr := h.addr, resolve := h.resolve }

/-- `impl IdentityResolver for SharedIdentityResolver`: forwards
verbatim to the wrapped resolver (`self.0.resolve_identity(config_bag)`). -/
def SharedIdentityResolver.resolve_identity (h : SharedIdentityResolver)
    (config_bag : ConfigBag) : FutureIdentity :=
  h.resolve config_bag

/-- `AuthSchemeId`: opaque, cheaply copyable, equality-comparable
identifier of an authentication mechanism. -/
structure AuthSchemeId where
  scheme_id : String
deriving DecidableEq

/-- `ConfiguredIdentityResolver`: an identity resolver paired with the
auth scheme ID it resolves for. -/
structure ConfiguredIdentityResolver where
  auth_scheme : AuthSchemeId
  identity_resolver : SharedIdentityResolver

/-- `ConfiguredIdentityResolver::new(auth_scheme, identity_resolver)`. -/
def ConfiguredIdentityResolver.new (auth_scheme : AuthSchemeId)
    (identity_resolver : SharedIdentityResolver) : ConfiguredIdentityResolver :=
  { auth_scheme := auth_scheme, identity_resolver := identity_resolver }

/-- `ConfiguredIdentityResolver::scheme_id()`: returns the auth scheme
ID by value (`AuthSchemeId` is `Copy`). -/
def ConfiguredIdentityResolver.scheme_id (c : ConfiguredIdentityResolver) : AuthSchemeId :=
  c.auth_scheme

/-- `ConfiguredIdentityResolver::identity_resolver()`: returns a fresh
clone of the shared handle (`self.identity_resolver.clone()`). -/
def ConfiguredIdentityResolver.getIdentityResolver (c : ConfiguredIdentityResolver) :
    SharedIdentityResolver :=
  c.identity_resolver.clone

/-- `#[derive(Clone)] struct ConfiguredIdentityResolver`: clones the
`Copy` scheme id and the `Arc` handle. -/
def ConfiguredIdentityResolver.clone (c : ConfiguredIdentityResolver) :
    ConfiguredIdentityResolver :=
  { auth_scheme := c.auth_scheme, identity_resolver := c.identity_resolver.clone }

/-- `IdentityResolvers`: the per-attempt snapshot, an owned ordered
sequence of bindings (`identity_resolvers: Vec<ConfiguredIdentityResolver>`). -/
structure IdentityResolvers where
  identity_resolvers : List ConfiguredIdentityResolver

/-- `IdentityResolvers::new(resolvers)` with its `tracing::warn!` side
effect made explicit: the iterated bindings are cloned into an owned
vector, and when the result is empty a diagnostic warning is emitted. -/
def IdentityResolvers.newWithDiagnostics (resolvers : List ConfiguredIdentityResolver) :
    IdentityResolvers × List String :=
  let identity_resolvers := resolvers.map ConfiguredIdentityResolver.clone
  ({ identity_resolvers := identity_resolvers },
    if identity_resolvers.isEmpty
    then ["no identity resolvers available for this request"]
    else [])

/-- `IdentityResolvers::new(resolvers)`: the constructed snapshot. -/
def IdentityResolvers.new (resolvers : List ConfiguredIdentityResolver) : IdentityResolvers :=
  (IdentityResolvers.newWithDiagnostics resolvers).1

/-- `#[derive(Default)] struct IdentityResolvers` together with its
(absent) side effects: `Vec::default()` is empty and the derived
implementation performs no logging. -/
def IdentityResolvers.defaultWithDiagnostics : IdentityResolvers × List String :=
  ({ identity_resolvers := [] }, [])

/-- The derived `Default::default()` value. -/
def IdentityResolvers.defaultValue : IdentityResolvers :=
  IdentityResolvers.defaultWithDiagnostics.1

/-- `#[derive(Clone)] struct IdentityResolvers`: clones the vector
element-wise. -/
def IdentityResolvers.clone (r : IdentityResolvers) : IdentityResolvers :=
  { identity_resolvers := r.identity_resolvers.map ConfiguredIdentityResolver.clone }

/-- `IdentityResolvers::identity_resolver(scheme_id)`: find the first
pair whose scheme id equals the request and return its resolver handle. -/
def IdentityResolvers.identityResolver (self : IdentityResolvers)
    (scheme_id : AuthSchemeId) : Option SharedIdentityResolver :=
  (self.identity_resolvers.find? (fun pair => pair.scheme_id == scheme_id)).map
    (fun pair => pair.getIdentityResolver)

/-- Lookup semantics as the spec words it: scan the snapshot in its
fixed order and return the resolver from the first entry whose scheme id
equals the requested one; absent when no entry matches. -/
def specLookupFirstMatch (l : List ConfiguredIdentityResolver) (s : AuthSchemeId) :
    Option SharedIdentityResolver :=
  match l with
  | [] => none
  | c :: rest =>
      if c.scheme_id = s then some c.getIdentityResolver
      else specLookupFirstMatch rest s

/-- Storage policies of the layered configuration store
(`StoreReplace` / `StoreAppend`). -/
inductive StoragePolicy where
  | append : StoragePolicy
  | replace : StoragePolicy
deriving DecidableEq

/-- `impl Storable for ConfiguredIdentityResolver { type Storer = StoreAppend<Self> }`. -/
def ConfiguredIdentityResolver.storagePolicy : StoragePolicy :=
  StoragePolicy.append

/-- `impl Storable for IdentityResolvers { type Storer = StoreReplace<IdentityResolvers> }`. -/
def IdentityResolvers.storagePolicy : StoragePolicy :=
  StoragePolicy.replace

/-- Modelled from the spec: one layer of the layered configuration
store (the `ConfigBag` layer implementation lives in `aws-smithy-types`,
outside this tree). The slot holds the ordered sequence of values stored
for one type in this layer. -/
structure Layer (α : Type) where
  slot : List α

/-- Modelled from the spec: a layer in which nothing has been stored yet. -/
def Layer.empty (α : Type) : Layer α :=
  { slot := [] }

/-- Modelled from the spec: storing a value into a layer — under the
Replace policy the new value supersedes the prior value of that type in
the layer; under the Append policy it is added to the accumulating
ordered sequence. -/
def Layer.store {α : Type} (policy : StoragePolicy) (l : Layer α) (v : α) : Layer α :=
  match policy with
  | StoragePolicy.replace => { slot := [v] }
  | StoragePolicy.append => { slot := l.slot ++ [v] }

/-- Modelled from the spec: the single-value read used for a
Replace-policy type. -/
def Layer.loadReplace {α : Type} (l : Layer α) : Option α :=
  l.slot.getLast?

/-- Modelled from the spec: the sequence read used for an Append-policy
type, yielding the stored values in insertion order. -/
def Layer.loadAppend {α : Type} (l : Layer α) : List α :=
  l.slot

/-- Mutation of the live binding collection after a snapshot was taken:
registering one more binding appends it to the accumulated sequence. -/
def registerBinding (st : List ConfiguredIdentityResolver)
    (c : ConfiguredIdentityResolver) : List ConfiguredIdentityResolver :=
  st ++ [c]

/-- A sequence of post-snapshot mutations applied to the live binding
collection. -/
def applyMutations (st : List ConfiguredIdentityResolver)
    (ms : List ConfiguredIdentityResolver) : List ConfiguredIdentityResolver :=
  ms.foldl registerBinding st

/-- Cloning an `Arc` handle is the identity on the modelled value. -/
theorem SharedIdentityResolver.cloneShared_eq (h : SharedIdentityResolver) : h.clone = h :=
  rfl

/-- Cloning a binding is the identity on the modelled value. -/
theorem ConfiguredIdentityResolver.cloneBinding_eq (c : ConfiguredIdentityResolver) :
    c.clone = c :=
  rfl

/-- The snapshot constructor copies the bindings it is given, in order. -/
theorem IdentityResolvers.new_copies (l : List ConfiguredIdentityResolver) :
    (IdentityResolvers.new l).identity_resolvers = l := by
  show l.map ConfiguredIdentityResolver.clone = l
  induction l with
  | nil => rfl
  | cons c rest ih => simp [ih, ConfiguredIdentityResolver.cloneBinding_eq]

/-- The code's find-and-map lookup agrees with the spec's first-match
scan. -/
theorem findMap_eq_specLookup (l : List ConfiguredIdentityResolver) (s : AuthSchemeId) :
    ((l.find? (fun pair => pair.scheme_id == s)).map
      (fun pair => pair.getIdentityResolver)) = specLookupFirstMatch l s := by
  induction l with
  | nil => rfl
  | cons c rest ih =>
      by_cases h : c.scheme_id = s
      · simp [List.find?_cons, h, specLookupFirstMatch,
          ConfiguredIdentityResolver.getIdentityResolver]
      · simp [List.find?_cons, h, specLookupFirstMatch, ih]

/-- Lookup on a freshly built snapshot follows the spec's first-match
scan of the construction-time bindings. -/
theorem identityResolver_eq_spec (l : List ConfiguredIdentityResolver)
    (s : AuthSchemeId) :
    (IdentityResolvers.new l).identityResolver s = specLookupFirstMatch l s := by
  rw [IdentityResolvers.identityResolver, IdentityResolvers.new_copies,
    findMap_eq_specLookup]

/-- The `sigv4` auth scheme id. -/
def sigv4 : AuthSchemeId :=
  { scheme_id := "sigv4" }

/-- The `bearer` auth scheme id. -/
def bearer : AuthSchemeId :=
  { scheme_id := "bearer" }

/-- The `oauth` auth scheme id. -/
def oauth : AuthSchemeId :=
  { scheme_id := "oauth" }

/-- A concrete resolver handle at address 1. -/
def R1 : SharedIdentityResolver :=
  { addr := 1, resolve := fun _ => Except.ok (Identity.new Ty.nat 1 none) }

/-- A concrete resolver handle at address 2. -/
def R2 : SharedIdentityResolver :=
  { addr := 2, resolve := fun _ => Except.ok (Identity.new Ty.nat 2 none) }

/-- A concrete resolver handle at address 3. -/
def R3 : SharedIdentityResolver :=
  { addr := 3, resolve := fun _ => Except.ok (Identity.new Ty.nat 3 none) }

/-- The bindings of testable property 3, in construction order. -/
def exampleBindings : List ConfiguredIdentityResolver :=
  [ConfiguredIdentityResolver.new sigv4 R1,
   ConfiguredIdentityResolver.new bearer R2,
   ConfiguredIdentityResolver.new sigv4 R3]

/-- Claim C1: `Identity::new(P, E)` returns `P` from the typed payload
accessor at the stored type, absent for every other type, and `E` from
`expiration()`. -/
theorem identity_new_accessors (t : Ty) (p : t.interp) (e : Option SystemTime) :
    (Identity.new t p e).dataAs t = some p ∧
    (∀ u : Ty, u ≠ t → (Identity.new t p e).dataAs u = none) ∧
    (Identity.new t p e).getExpiration = e := by
  refine ⟨?_, ?_, rfl⟩
  · simp [Identity.new, Identity.dataAs, AnyVal.downcast]
  · intro u hu
    simp [Identity.new, Identity.dataAs, AnyVal.downcast, Ne.symm hu]

/-- Witness for C1 at the payload 3 of type `nat`, requested also at the
distinct type `str`, with expiration 7. -/
theorem identity_new_accessors_witness :
    (Identity.new Ty.nat 3 (some 7)).dataAs Ty.nat = some 3 ∧
    (Identity.new Ty.nat 3 (some 7)).dataAs Ty.str = none ∧
    (Identity.new Ty.nat 3 (some 7)).getExpiration = some 7 := by
  obtain ⟨h1, h2, h3⟩ := identity_new_accessors Ty.nat 3 (some 7)
  exact ⟨h1, h2 Ty.str (by decide), h3⟩

/-- Claim C2: snapshot lookup returns the first entry's resolver in
construction order, absent when none matches; in particular on bindings
[(sigv4, R1), (bearer, R2), (sigv4, R3)] lookup of sigv4 yields R1 (not
R3), bearer yields R2, oauth yields none. -/
theorem identity_resolver_first_match :
    (∀ (l : List ConfiguredIdentityResolver) (s : AuthSchemeId),
      (IdentityResolvers.new l).identityResolver s = specLookupFirstMatch l s) ∧
    (IdentityResolvers.new exampleBindings).identityResolver sigv4 = some R1 ∧
    (IdentityResolvers.new exampleBindings).identityResolver bearer = some R2 ∧
    (IdentityResolvers.new exampleBindings).identityResolver oauth = none ∧
    R1 ≠ R3 := by
  refine ⟨identityResolver_eq_spec, rfl, rfl, rfl, fun h => ?_⟩
  have : R1.addr = R3.addr := congrArg SharedIdentityResolver.addr h
  simp [R1, R3] at this

/-- Claim C3: building a snapshot from zero bindings succeeds, emitting
only a diagnostic warning, and every lookup on the empty snapshot is
absent. -/
theorem empty_snapshot_lookup_none :
    IdentityResolvers.newWithDiagnostics [] =
      ({ identity_resolvers := [] },
        ["no identity resolvers available for this request"]) ∧
    (∀ s : AuthSchemeId, (IdentityResolvers.new []).identityResolver s = none) :=
  ⟨rfl, fun _ => rfl⟩

/-- Claim C4: the snapshot constructor copies the visible bindings in
order into an owned snapshot; lookup on that snapshot is determined by
the construction-time bindings alone, whatever mutations are applied to
the live collection afterwards (a later rebuild sees the mutated
collection instead). -/
theorem snapshot_isolation (l ms : List ConfiguredIdentityResolver) (s : AuthSchemeId) :
    (IdentityResolvers.new l).identity_resolvers = l ∧
    (IdentityResolvers.new l).identityResolver s = specLookupFirstMatch l s ∧
    (IdentityResolvers.new (applyMutations l ms)).identityResolver s =
      specLookupFirstMatch (applyMutations l ms) s :=
  ⟨IdentityResolvers.new_copies l, identityResolver_eq_spec l s,
    identityResolver_eq_spec (applyMutations l ms) s⟩

/-- Claim C5: `ConfiguredIdentityResolver` declares the Append policy
and `IdentityResolvers` the Replace policy; storing two snapshot values
in one layer leaves only the second readable, while storing two bindings
leaves both readable in insertion order. -/
theorem storage_policy_declarations :
    ConfiguredIdentityResolver.storagePolicy = StoragePolicy.append ∧
    IdentityResolvers.storagePolicy = StoragePolicy.replace ∧
    (∀ (l : Layer IdentityResolvers) (v1 v2 : IdentityResolvers),
      ((l.store StoragePolicy.replace v1).store StoragePolicy.replace v2).loadReplace
        = some v2) ∧
    (∀ (c1 c2 : ConfiguredIdentityResolver),
      (((Layer.empty ConfiguredIdentityResolver).store StoragePolicy.append c1).store
          StoragePolicy.append c2).loadAppend = [c1, c2]) :=
  ⟨rfl, rfl, fun _ _ _ => rfl, fun _ _ => rfl⟩

/-- Claim C6: cloning a shared resolver handle preserves the address of
the underlying resolver instance and the outcome of resolution, and the
handle's `resolve_identity` forwards verbatim to the wrapped resolver. -/
theorem shared_resolver_clone_resolves_same (h : SharedIdentityResolver)
    (r : IdentityResolverImpl) (a : Nat) (cfg : ConfigBag) :
    h.clone.addr = h.addr ∧
    h.clone.resolve_identity cfg = h.resolve_identity cfg ∧
    (SharedIdentityResolver.new r a).resolve_identity cfg = r.resolve_identity cfg :=
  ⟨rfl, rfl, rfl⟩

/-- Claim C7: a binding built from scheme id `a` and handle `r` returns
exactly `a` from `scheme_id()` and a clone of `r`, pointing at the same
underlying resolver, from `identity_resolver()`. -/
theorem configured_resolver_accessors (a : AuthSchemeId) (r : SharedIdentityResolver) :
    (ConfiguredIdentityResolver.new a r).scheme_id = a ∧
    (ConfiguredIdentityResolver.new a r).getIdentityResolver = r.clone ∧
    (ConfiguredIdentityResolver.new a r).getIdentityResolver.addr = r.addr :=
  ⟨rfl, rfl, rfl⟩

/-- Claim C8: a clone of an `Identity` shares the same type-erased
payload, agrees with the original on the typed accessor at every type,
and copies the expiration. -/
theorem identity_clone_agrees (i : Identity) (u : Ty) :
    i.clone.data = i.data ∧
    i.clone.dataAs u = i.dataAs u ∧
    i.clone.getExpiration = i.getExpiration :=
  ⟨rfl, rfl, rfl⟩

/-- Claim C9: the derived default snapshot is empty, every lookup on it
is absent, and unlike `IdentityResolvers::new` on an empty sequence the
default construction emits no diagnostic warning. -/
theorem default_snapshot_empty_no_warning :
    IdentityResolvers.defaultValue.identity_resolvers = [] ∧
    IdentityResolvers.defaultWithDiagnostics.2 = [] ∧
    (∀ s : AuthSchemeId, IdentityResolvers.defaultValue.identityResolver s = none) ∧
    (IdentityResolvers.newWithDiagnostics []).2 ≠ [] := by
  refine ⟨rfl, rfl, fun _ => rfl, ?_⟩
  simp [IdentityResolvers.newWithDiagnostics]

/-- Claim C10: a clone of a snapshot yields, for every scheme id, the
same lookup result — a handle to the same underlying resolver, or
absent — as the original snapshot. -/
theorem snapshot_clone_lookup_agrees (r : IdentityResolvers) (s : AuthSchemeId) :
    r.clone.identityResolver s = r.identityResolver s ∧
    (r.clone.identityResolver s).map SharedIdentityResolver.addr =
      (r.identityResolver s).map SharedIdentityResolver.addr := by
  have hc : r.clone = r := by
    show { identity_resolvers := r.identity_resolvers.map ConfiguredIdentityResolver.clone } = r
    have : r.identity_resolvers.map ConfiguredIdentityResolver.clone = r.identity_resolvers := by
      induction r.identity_resolvers with
      | nil => rfl
      | cons c rest ih => simp [ih, ConfiguredIdentityResolver.cloneBinding_eq]
    rw [this]
  rw [hc]
  exact ⟨rfl, rfl⟩
